import Mathlib

/-!
Shallow embedding of the plane-based space partitioner in `src/partition.cpp`
(class `SpacePartitioner`).

Modelling conventions:
* `float` values are modelled as exact rationals `ℚ`; the partitioner's
  geometry (plane coefficients, points, distances) is rational arithmetic.
* `glm::normalize` divides by a square root, so the parallelism test
  `arePlanesParallel` is stated over `ℝ` (with `Real.sqrt`), exactly
  following the source expression
  `all(epsilonEqual(abs(normalize n1), abs(normalize n2), 0.0001))`.
* `glm::inverse` of a 3x3 matrix is the adjugate divided by the determinant;
  for a singular matrix the source (IEEE floats) produces non-finite garbage
  and throws nothing, while this exact model produces the zero matrix
  (division by zero is zero).  In both semantics the singular branch falls
  through to the validity filter instead of being skipped.
* The mutable member vectors (`parallelGroups`, `nonParallelPlanes`, `cells`)
  are modelled by explicit arguments and return values; list order follows
  the push_back order of the source.
-/

/-- Implicit plane `a*x + b*y + c*z + d = 0`, mirroring `struct Plane`. -/
structure Plane where
  a : ℚ
  b : ℚ
  c : ℚ
  d : ℚ
deriving DecidableEq, Repr

instance : Inhabited Plane := ⟨⟨0, 0, 0, 0⟩⟩

/-- A 3d point/vector with rational coordinates, mirroring `glm::vec3`. -/
structure Vec3 where
  x : ℚ
  y : ℚ
  z : ℚ
deriving DecidableEq, Repr

instance : Inhabited Vec3 := ⟨⟨0, 0, 0⟩⟩

/-- `glm::cross` of two vectors. -/
def cross (u v : Vec3) : Vec3 :=
  ⟨u.y * v.z - v.y * u.z, u.z * v.x - v.z * u.x, u.x * v.y - v.x * u.y⟩

/-- Mirrors `struct Vertex`: a position plus the indices of the planes the
vertex lies on (`associatedPlanes`, C++ `std::vector<int>`). -/
structure Vertex where
  x : ℚ
  y : ℚ
  z : ℚ
  associatedPlanes : List ℤ := []
deriving DecidableEq, Repr

instance : Inhabited Vertex := ⟨⟨0, 0, 0, []⟩⟩

/-- The position of a vertex as a `Vec3`. -/
def Vertex.pos (v : Vertex) : Vec3 := ⟨v.x, v.y, v.z⟩

/-- Mirrors `struct ContourPlane`: a cutting plane together with its source
polygon vertices. -/
structure ContourPlane where
  plane : Plane
  numVertices : ℕ := 0
  vertices : List Vertex := []
deriving DecidableEq, Repr

instance : Inhabited ContourPlane := ⟨⟨default, 0, []⟩⟩

/-- Mirrors `struct PlaneGroup`: a representative normal plus the contour
planes classified as parallel to the group. -/
structure PlaneGroup where
  normal : Vec3
  planes : List ContourPlane
deriving DecidableEq, Repr

/-- Mirrors `struct Edge`: an edge between two vertex indices of a cell. -/
structure Edge where
  vertexIndex1 : ℕ
  vertexIndex2 : ℕ
deriving DecidableEq, Repr

/-- Mirrors `struct ConvexCell`. -/
structure ConvexCell where
  vertices : List Vertex
  edges : List Edge
  boundaryPlanes : List Plane
deriving DecidableEq, Repr

/-- Mirrors `struct BoundingBox` (min/max corners). -/
structure BoundingBox where
  min : Vec3
  max : Vec3
deriving DecidableEq, Repr

/-- The fixed tolerance `0.0001f` used throughout the source, as a rational. -/
def tol : ℚ := 1 / 10000

/-- Euclidean length of a plane's normal `(a, b, c)`, as used by
`glm::normalize` inside `arePlanesParallel`. -/
noncomputable def nlen (p : Plane) : ℝ :=
  Real.sqrt ((p.a : ℝ) ^ 2 + (p.b : ℝ) ^ 2 + (p.c : ℝ) ^ 2)

/-- Source `SpacePartitioner::arePlanesParallel`:
`glm::all(glm::epsilonEqual(abs(normalize n1), abs(normalize n2), 0.0001f))`,
i.e. the absolute values of the two normalized normals agree componentwise
within `0.0001` (strict inequality, as in `glm::epsilonEqual`). -/
noncomputable def arePlanesParallel (p1 p2 : Plane) : Prop :=
  abs (abs ((p1.a : ℝ) / nlen p1) - abs ((p2.a : ℝ) / nlen p2)) < (tol : ℝ) ∧
  abs (abs ((p1.b : ℝ) / nlen p1) - abs ((p2.b : ℝ) / nlen p2)) < (tol : ℝ) ∧
  abs (abs ((p1.c : ℝ) / nlen p1) - abs ((p2.c : ℝ) / nlen p2)) < (tol : ℝ)

/-- The boolean value of `arePlanesParallel` as the C++ code consumes it. -/
noncomputable def parallelTest (p1 p2 : Plane) : Bool :=
  @decide (arePlanesParallel p1 p2) (Classical.propDecidable _)

theorem parallelTest_eq_true {p1 p2 : Plane} :
    parallelTest p1 p2 = true ↔ arePlanesParallel p1 p2 := by
  simp [parallelTest]

theorem parallelTest_eq_false {p1 p2 : Plane} :
    parallelTest p1 p2 = false ↔ ¬ arePlanesParallel p1 p2 := by
  simp [parallelTest]

theorem arePlanesParallel_refl (p : Plane) : arePlanesParallel p p := by
  refine ⟨?_, ?_, ?_⟩ <;>
    · rw [sub_self, abs_zero]
      norm_num [tol]

theorem parallelTest_self (p : Plane) : parallelTest p p = true :=
  parallelTest_eq_true.mpr (arePlanesParallel_refl p)

/-- If the component absolute values of the two normals agree exactly, the
planes are classified as parallel. -/
theorem parallelTest_of_abs_eq {p1 p2 : Plane}
    (ha : |p1.a| = |p2.a|) (hb : |p1.b| = |p2.b|) (hc : |p1.c| = |p2.c|) :
    parallelTest p1 p2 = true := by
  have cast_abs : ∀ u v : ℚ, |u| = |v| → |(u : ℝ)| = |(v : ℝ)| := by
    intro u v h
    rw [← Rat.cast_abs, ← Rat.cast_abs]
    exact_mod_cast h
  have haR := cast_abs _ _ ha
  have hbR := cast_abs _ _ hb
  have hcR := cast_abs _ _ hc
  have hlen : nlen p1 = nlen p2 := by
    unfold nlen
    rw [← sq_abs (p1.a : ℝ), ← sq_abs (p1.b : ℝ), ← sq_abs (p1.c : ℝ),
      haR, hbR, hcR, sq_abs, sq_abs, sq_abs]
  refine parallelTest_eq_true.mpr ⟨?_, ?_, ?_⟩
  · rw [abs_div, abs_div, hlen, haR, sub_self, abs_zero]
    norm_num [tol]
  · rw [abs_div, abs_div, hlen, hbR, sub_self, abs_zero]
    norm_num [tol]
  · rw [abs_div, abs_div, hlen, hcR, sub_self, abs_zero]
    norm_num [tol]

/-- For a plane whose normal has rational length `L`, the normal length
evaluates to `L`. -/
theorem nlen_eq (p : Plane) (L : ℚ) (hL : 0 ≤ L)
    (h : L * L = p.a * p.a + p.b * p.b + p.c * p.c) : nlen p = (L : ℝ) := by
  unfold nlen
  have hcast : ((L : ℝ) * L = (p.a : ℝ) * p.a + (p.b : ℝ) * p.b + (p.c : ℝ) * p.c) := by
    exact_mod_cast congrArg (fun q : ℚ => (q : ℝ)) h
  have hsq : (p.a : ℝ) ^ 2 + (p.b : ℝ) ^ 2 + (p.c : ℝ) ^ 2 = (L : ℝ) ^ 2 := by
    nlinarith [hcast]
  rw [hsq, Real.sqrt_sq (by exact_mod_cast hL)]

/-- Rational characterisation of `arePlanesParallel` for planes whose normals
have rational lengths. -/
theorem arePlanesParallel_iff_rat (p1 p2 : Plane) (L1 L2 : ℚ)
    (hL1 : 0 ≤ L1) (hL2 : 0 ≤ L2)
    (h1 : L1 * L1 = p1.a * p1.a + p1.b * p1.b + p1.c * p1.c)
    (h2 : L2 * L2 = p2.a * p2.a + p2.b * p2.b + p2.c * p2.c) :
    arePlanesParallel p1 p2 ↔
      (abs (abs (p1.a / L1) - abs (p2.a / L2)) < tol ∧
       abs (abs (p1.b / L1) - abs (p2.b / L2)) < tol ∧
       abs (abs (p1.c / L1) - abs (p2.c / L2)) < tol) := by
  unfold arePlanesParallel
  rw [nlen_eq p1 L1 hL1 h1, nlen_eq p2 L2 hL2 h2]
  have cast_cmp : ∀ u w : ℚ,
      (abs (abs ((u : ℝ) / (L1 : ℝ)) - abs ((w : ℝ) / (L2 : ℝ))) < (tol : ℝ) ↔
        abs (abs (u / L1) - abs (w / L2)) < tol) := by
    intro u w
    constructor
    · intro h
      exact_mod_cast h
    · intro h
      exact_mod_cast h
  constructor
  · rintro ⟨x, y, z⟩
    exact ⟨(cast_cmp _ _).mp x, (cast_cmp _ _).mp y, (cast_cmp _ _).mp z⟩
  · rintro ⟨x, y, z⟩
    exact ⟨(cast_cmp _ _).mpr x, (cast_cmp _ _).mpr y, (cast_cmp _ _).mpr z⟩

/-- Helper to discharge concrete non-parallelism facts by rational
computation. -/
theorem parallelTest_eq_false_of (p1 p2 : Plane) (L1 L2 : ℚ)
    (hL1 : 0 ≤ L1) (hL2 : 0 ≤ L2)
    (h1 : L1 * L1 = p1.a * p1.a + p1.b * p1.b + p1.c * p1.c)
    (h2 : L2 * L2 = p2.a * p2.a + p2.b * p2.b + p2.c * p2.c)
    (h : ¬ (abs (abs (p1.a / L1) - abs (p2.a / L2)) < tol ∧
            abs (abs (p1.b / L1) - abs (p2.b / L2)) < tol ∧
            abs (abs (p1.c / L1) - abs (p2.c / L2)) < tol)) :
    parallelTest p1 p2 = false :=
  parallelTest_eq_false.mpr
    (fun hp => h ((arePlanesParallel_iff_rat p1 p2 L1 L2 hL1 hL2 h1 h2).mp hp))

/-- One step of `SpacePartitioner::classifyPlanes`: try each existing group in
order and join the first whose *first member* is parallel to the plane;
otherwise append a fresh singleton group (source lines 20-42). -/
noncomputable def insertPlane (groups : List PlaneGroup) (cp : ContourPlane) :
    List PlaneGroup :=
  match groups with
  | [] => [⟨⟨cp.plane.a, cp.plane.b, cp.plane.c⟩, [cp]⟩]
  | g :: rest =>
      if parallelTest cp.plane g.planes.headI.plane then
        ⟨g.normal, g.planes ++ [cp]⟩ :: rest
      else
        g :: insertPlane rest cp

/-- Source `SpacePartitioner::classifyPlanes`: a single left-to-right pass
over all planes (input + closure). -/
noncomputable def classifyPlanes (planes : List ContourPlane) : List PlaneGroup :=
  planes.foldl insertPlane []

/-- The determinant computed by `glm::inverse` for the matrix
`glm::mat3 A(p1.a, p1.b, p1.c, p2.a, p2.b, p2.c, p3.a, p3.b, p3.c)`.
The constructor is column-major, so the *columns* of `A` are the three plane
normals (the source builds the transpose of the row system it intends). -/
def interDet (p1 p2 p3 : Plane) : ℚ :=
  p1.a * (p2.b * p3.c - p3.b * p2.c) -
  p2.a * (p1.b * p3.c - p3.b * p1.c) +
  p3.a * (p1.b * p2.c - p2.b * p1.c)

/-- Source `SpacePartitioner::computePlaneIntersection`:
`glm::inverse(A) * b` with `b = (-p1.d, -p2.d, -p3.d)`, where `glm::inverse`
is the adjugate times `1/det` (cofactor formulas of glm, column-major).
In this exact model `1/0 = 0`, so a singular matrix yields the zero matrix
(the float source yields non-finite values); no exception is thrown in
either semantics. -/
def computePlaneIntersection (p1 p2 p3 : Plane) : Vec3 :=
  -- column-major entries m(col)(row): column i is the normal of plane i+1
  let m00 := p1.a
  let m01 := p1.b
  let m02 := p1.c
  let m10 := p2.a
  let m11 := p2.b
  let m12 := p2.c
  let m20 := p3.a
  let m21 := p3.b
  let m22 := p3.c
  let oneOverDet := 1 / interDet p1 p2 p3
  let i00 := (m11 * m22 - m21 * m12) * oneOverDet
  let i10 := -(m10 * m22 - m20 * m12) * oneOverDet
  let i20 := (m10 * m21 - m20 * m11) * oneOverDet
  let i01 := -(m01 * m22 - m21 * m02) * oneOverDet
  let i11 := (m00 * m22 - m20 * m02) * oneOverDet
  let i21 := -(m00 * m21 - m20 * m01) * oneOverDet
  let i02 := (m01 * m12 - m11 * m02) * oneOverDet
  let i12 := -(m00 * m12 - m10 * m02) * oneOverDet
  let i22 := (m00 * m11 - m10 * m01) * oneOverDet
  let bx := -p1.d
  let bby := -p2.d
  let bz := -p3.d
  ⟨i00 * bx + i10 * bby + i20 * bz,
   i01 * bx + i11 * bby + i21 * bz,
   i02 * bx + i12 * bby + i22 * bz⟩

/-- Source `SpacePartitioner::computeDistance`: the signed value of the
implicit plane equation at a point. -/
def computeDistance (plane : Plane) (point : Vec3) : ℚ :=
  plane.a * point.x + plane.b * point.y + plane.c * point.z + plane.d

/-- Insertion of a contour plane into a list sorted ascending by `d`; used to
model `std::sort` with comparator `a.plane.d < b.plane.d` (source line 85). -/
def insertByD (cp : ContourPlane) : List ContourPlane → List ContourPlane
  | [] => [cp]
  | x :: xs =>
      if cp.plane.d ≤ x.plane.d then cp :: x :: xs else x :: insertByD cp xs

/-- Sort a group's planes ascending by their `d` offset. -/
def sortByD (l : List ContourPlane) : List ContourPlane :=
  l.foldr insertByD []

/-- Source `SpacePartitioner::createSlabCell`: a fixed-extent rectangular
prism wireframe between two parallel planes, with `size = 100`, tangent
`cross(normal, (0,1,0))`, bitangent `cross(normal, tangent)`, eight vertices
indexed by the bits of `i`, and twelve edges. -/
def createSlabCell (bottom top : Plane) : ConvexCell :=
  let normal : Vec3 := ⟨bottom.a, bottom.b, bottom.c⟩
  let size : ℚ := 100
  let tangent := cross normal ⟨0, 1, 0⟩
  let bitangent := cross normal tangent
  let vtx : ℕ → Vertex := fun i =>
    let st : ℚ := if i % 2 = 1 then size else -size
    let sb : ℚ := if i / 2 % 2 = 1 then size else -size
    let off : ℚ := if i / 4 % 2 = 1 then bottom.d else top.d
    ⟨tangent.x * st + bitangent.x * sb + normal.x * off,
     tangent.y * st + bitangent.y * sb + normal.y * off,
     tangent.z * st + bitangent.z * sb + normal.z * off, []⟩
  { vertices := (List.range 8).map vtx
    edges := (List.range 4).flatMap fun i =>
      [⟨i, (i + 1) % 4⟩, ⟨i + 4, (i + 1) % 4 + 4⟩, ⟨i, i + 4⟩]
    boundaryPlanes := [bottom, top] }

/-- The slab cells contributed by one parallel group (body of the loop in
`SpacePartitioner::computeParallelPlaneCells`): nothing for groups with fewer
than two members, otherwise one slab per consecutive pair of the sorted
planes. -/
def slabCellsOfGroup (g : PlaneGroup) : List ConvexCell :=
  if g.planes.length < 2 then []
  else
    let s := sortByD g.planes
    (s.zip s.tail).map fun pr => createSlabCell pr.1.plane pr.2.plane

/-- Source `SpacePartitioner::computeParallelPlaneCells`, as the list of
cells appended to `cells` in group order. -/
def computeParallelPlaneCells (groups : List PlaneGroup) : List ConvexCell :=
  groups.flatMap slabCellsOfGroup

/-- The filter at the start of `SpacePartitioner::computeNonParallelPlaneCells`
(source lines 139-150): a plane is kept when it is parallel to no group's
first member. -/
noncomputable def nonParallelSelection (planes : List ContourPlane)
    (groups : List PlaneGroup) : List ContourPlane :=
  planes.filter fun cp =>
    !(groups.any fun g => parallelTest cp.plane g.planes.headI.plane)

/-- The ordered triples `(i, j, k)` with `i < j < k < n`, in the iteration
order of the three nested loops of `findIntersectionVertices`. -/
def triples (n : ℕ) : List (ℕ × ℕ × ℕ) :=
  (List.range n).flatMap fun i =>
    ((List.range n).filter fun j => decide (i < j)).flatMap fun j =>
      ((List.range n).filter fun k => decide (j < k)).map fun k => (i, j, k)

/-- The parallel-pair skip test of one loop iteration of
`findIntersectionVertices` (source lines 167-171). -/
noncomputable def tripleParallelSkip (planes : List ContourPlane)
    (i j k : ℕ) : Bool :=
  parallelTest (planes.getD i default).plane (planes.getD j default).plane ||
  parallelTest (planes.getD j default).plane (planes.getD k default).plane ||
  parallelTest (planes.getD i default).plane (planes.getD k default).plane

/-- The candidate vertex of one loop iteration: the triple intersection point
tagged with the three contributing indices `{i, j, k}` (source lines 174-188). -/
def tripleVertex (planes : List ContourPlane) (i j k : ℕ) : Vertex :=
  let x := computePlaneIntersection (planes.getD i default).plane
    (planes.getD j default).plane (planes.getD k default).plane
  ⟨x.x, x.y, x.z, [(i : ℤ), (j : ℤ), (k : ℤ)]⟩

/-- The validity filter of one loop iteration (source lines 178-184): the
candidate is rejected as soon as `computeDistance > 0.0001` for some plane of
the whole non-parallel set. -/
def tripleValid (planes : List ContourPlane) (i j k : ℕ) : Bool :=
  !(planes.any fun q =>
    decide (tol < computeDistance q.plane (tripleVertex planes i j k).pos))

/-- One loop iteration of `findIntersectionVertices`: skip parallel pairs,
then accept the intersection point iff it passes the validity filter. -/
noncomputable def acceptTriple (planes : List ContourPlane) :
    ℕ × ℕ × ℕ → Option Vertex
  | (i, j, k) =>
      if tripleParallelSkip planes i j k then none
      else if tripleValid planes i j k then some (tripleVertex planes i j k)
      else none

/-- The vertex list accumulated by `findIntersectionVertices`
(source lines 159-200), in loop order. -/
noncomputable def findIntersectionVertices (planes : List ContourPlane) :
    List Vertex :=
  (triples planes.length).filterMap (acceptTriple planes)

/-- The ordered pairs `(i, j)` with `i < j < n`, in the iteration order of the
two nested loops of `createCellFromIntersection`. -/
def pairsIdx (n : ℕ) : List (ℕ × ℕ) :=
  (List.range n).flatMap fun i =>
    ((List.range n).filter fun j => decide (i < j)).map fun j => (i, j)

/-- One pair test of `createCellFromIntersection`: emit an edge when the two
vertices share at least two associated planes (`std::set_intersection` on the
sorted index lists, modelled by `List.inter`). -/
def edgeCandidate (cellVertices : List Vertex) : ℕ × ℕ → Option Edge
  | (i, j) =>
      if 2 ≤ ((cellVertices.getD i default).associatedPlanes.inter
          (cellVertices.getD j default).associatedPlanes).length then
        some ⟨i, j⟩
      else none

/-- Source `SpacePartitioner::createCellFromIntersection` assembled from the
edge candidates of all index pairs, keeping all vertices and boundary
planes. -/
def createCellFromIntersection (cellVertices : List Vertex)
    (boundaryPlanes : List Plane) : ConvexCell :=
  { vertices := cellVertices
    edges := (pairsIdx cellVertices.length).filterMap (edgeCandidate cellVertices)
    boundaryPlanes := boundaryPlanes }

/-- Tail of `findIntersectionVertices` (source lines 202-209): when at least
one vertex was accepted, assemble a single cell from all accepted vertices
and the full boundary plane list. -/
noncomputable def intersectionCells (planes : List ContourPlane) :
    List ConvexCell :=
  let ivs := findIntersectionVertices planes
  if ivs.isEmpty then []
  else [createCellFromIntersection ivs (planes.map fun cp => cp.plane)]

/-- Source `SpacePartitioner::computeNonParallelPlaneCells`: filter the
non-parallel set; with fewer than three members the phase yields no cells,
otherwise it runs the triple-intersection search. -/
noncomputable def computeNonParallelPlaneCells (planes : List ContourPlane) :
    List ConvexCell :=
  let np := nonParallelSelection planes (classifyPlanes planes)
  if np.length < 3 then [] else intersectionCells np

/-- Source `SpacePartitioner::computeCells`: parallel phase then non-parallel
phase, cells in append order. -/
noncomputable def computeCells (planes : List ContourPlane) : List ConvexCell :=
  computeParallelPlaneCells (classifyPlanes planes) ++
    computeNonParallelPlaneCells planes

/-- The float sentinel `FLT_MAX` used to seed the bounding box scan. -/
def fltMax : ℚ := 2 ^ 128 - 2 ^ 104

/-- Source `SpacePartitioner::computeTightBoundingBox`: componentwise min/max
over every vertex of every contour plane, then expansion to twice the
half-extent about the center. -/
def computeTightBoundingBox (planes : List ContourPlane) : BoundingBox :=
  let seed : BoundingBox := ⟨⟨fltMax, fltMax, fltMax⟩, ⟨-fltMax, -fltMax, -fltMax⟩⟩
  let bbox := planes.foldl (fun acc cp =>
    cp.vertices.foldl (fun bb v =>
      ⟨⟨min bb.min.x v.x, min bb.min.y v.y, min bb.min.z v.z⟩,
       ⟨max bb.max.x v.x, max bb.max.y v.y, max bb.max.z v.z⟩⟩) acc) seed
  let cx := (bbox.max.x + bbox.min.x) * (1 / 2)
  let cy := (bbox.max.y + bbox.min.y) * (1 / 2)
  let cz := (bbox.max.z + bbox.min.z) * (1 / 2)
  let ex := bbox.max.x - cx
  let ey := bbox.max.y - cy
  let ez := bbox.max.z - cz
  ⟨⟨cx - ex * 2, cy - ey * 2, cz - ez * 2⟩, ⟨cx + ex * 2, cy + ey * 2, cz + ez * 2⟩⟩

/-- Source `SpacePartitioner::addBoundingBoxPlanes`: the six axis-aligned
closure planes with inward normals and their four corner vertices, in the
order the source pushes them. -/
def addBoundingBoxPlanes (bbox : BoundingBox) : List ContourPlane :=
  [ { plane := ⟨1, 0, 0, -bbox.min.x⟩, numVertices := 4
      vertices := [⟨bbox.min.x, bbox.min.y, bbox.min.z, []⟩,
                   ⟨bbox.min.x, bbox.max.y, bbox.min.z, []⟩,
                   ⟨bbox.min.x, bbox.max.y, bbox.max.z, []⟩,
                   ⟨bbox.min.x, bbox.min.y, bbox.max.z, []⟩] },
    { plane := ⟨-1, 0, 0, bbox.max.x⟩, numVertices := 4
      vertices := [⟨bbox.max.x, bbox.min.y, bbox.min.z, []⟩,
                   ⟨bbox.max.x, bbox.max.y, bbox.min.z, []⟩,
                   ⟨bbox.max.x, bbox.max.y, bbox.max.z, []⟩,
                   ⟨bbox.max.x, bbox.min.y, bbox.max.z, []⟩] },
    { plane := ⟨0, 1, 0, -bbox.min.y⟩, numVertices := 4
      vertices := [⟨bbox.min.x, bbox.min.y, bbox.min.z, []⟩,
                   ⟨bbox.max.x, bbox.min.y, bbox.min.z, []⟩,
                   ⟨bbox.max.x, bbox.min.y, bbox.max.z, []⟩,
                   ⟨bbox.min.x, bbox.min.y, bbox.max.z, []⟩] },
    { plane := ⟨0, -1, 0, bbox.max.y⟩, numVertices := 4
      vertices := [⟨bbox.min.x, bbox.max.y, bbox.min.z, []⟩,
                   ⟨bbox.max.x, bbox.max.y, bbox.min.z, []⟩,
                   ⟨bbox.max.x, bbox.max.y, bbox.max.z, []⟩,
                   ⟨bbox.min.x, bbox.max.y, bbox.max.z, []⟩] },
    { plane := ⟨0, 0, 1, -bbox.min.z⟩, numVertices := 4
      vertices := [⟨bbox.min.x, bbox.min.y, bbox.min.z, []⟩,
                   ⟨bbox.max.x, bbox.min.y, bbox.min.z, []⟩,
                   ⟨bbox.max.x, bbox.max.y, bbox.min.z, []⟩,
                   ⟨bbox.min.x, bbox.max.y, bbox.min.z, []⟩] },
    { plane := ⟨0, 0, -1, bbox.max.z⟩, numVertices := 4
      vertices := [⟨bbox.min.x, bbox.min.y, bbox.max.z, []⟩,
                   ⟨bbox.max.x, bbox.min.y, bbox.max.z, []⟩,
                   ⟨bbox.max.x, bbox.max.y, bbox.max.z, []⟩,
                   ⟨bbox.min.x, bbox.max.y, bbox.max.z, []⟩] } ]

/-- The plane list held by the partitioner after construction: the input
planes followed by the six closure planes (constructor, source lines 3-8). -/
def constructorPlanes (input : List ContourPlane) : List ContourPlane :=
  input ++ addBoundingBoxPlanes (computeTightBoundingBox input)

/-- The full pipeline: construct (append closure planes, classify) and run
`computeCells`. -/
noncomputable def runPipeline (input : List ContourPlane) : List ConvexCell :=
  computeCells (constructorPlanes input)

theorem headI_append_of_ne_nil {α : Type} [Inhabited α] (l l' : List α)
    (h : l ≠ []) : (l ++ l').headI = l.headI := by
  cases l with
  | nil => exact absurd rfl h
  | cons x xs => rfl

theorem insertPlane_planes_ne_nil {groups : List PlaneGroup}
    (h : ∀ g ∈ groups, g.planes ≠ []) (cp : ContourPlane) :
    ∀ g ∈ insertPlane groups cp, g.planes ≠ [] := by
  induction groups with
  | nil =>
      intro g hg
      simp only [insertPlane, List.mem_singleton] at hg
      subst hg
      simp
  | cons g0 rest ih =>
      intro g hg
      simp only [insertPlane] at hg
      by_cases hp : parallelTest cp.plane g0.planes.headI.plane = true
      · rw [if_pos hp] at hg
        rcases List.mem_cons.mp hg with h1 | h1
        · subst h1
          simp
        · exact h g (List.mem_cons_of_mem _ h1)
      · rw [if_neg hp] at hg
        rcases List.mem_cons.mp hg with h1 | h1
        · subst h1
          exact h g (List.mem_cons_self _ _)
        · exact ih (fun g' hg' => h g' (List.mem_cons_of_mem _ hg')) g h1

theorem insertPlane_preserves_heads {groups : List PlaneGroup}
    (h : ∀ g ∈ groups, g.planes ≠ []) (cp : ContourPlane) {g : PlaneGroup}
    (hg : g ∈ groups) :
    ∃ g' ∈ insertPlane groups cp, g'.planes.headI = g.planes.headI := by
  induction groups with
  | nil => cases hg
  | cons g0 rest ih =>
      simp only [insertPlane]
      by_cases hp : parallelTest cp.plane g0.planes.headI.plane = true
      · rw [if_pos hp]
        rcases List.mem_cons.mp hg with h1 | h1
        · subst h1
          refine ⟨⟨g.normal, g.planes ++ [cp]⟩, List.mem_cons_self _ _, ?_⟩
          exact headI_append_of_ne_nil _ _ (h g (List.mem_cons_self _ _))
        · exact ⟨g, List.mem_cons_of_mem _ h1, rfl⟩
      · rw [if_neg hp]
        rcases List.mem_cons.mp hg with h1 | h1
        · subst h1
          exact ⟨g, List.mem_cons_self _ _, rfl⟩
        · rcases ih (fun g' hg' => h g' (List.mem_cons_of_mem _ hg')) h1 with
            ⟨g', hg', hh⟩
          exact ⟨g', List.mem_cons_of_mem _ hg', hh⟩

theorem insertPlane_self_parallel {groups : List PlaneGroup}
    (h : ∀ g ∈ groups, g.planes ≠ []) (cp : ContourPlane) :
    ∃ g ∈ insertPlane groups cp,
      parallelTest cp.plane g.planes.headI.plane = true := by
  induction groups with
  | nil =>
      refine ⟨⟨⟨cp.plane.a, cp.plane.b, cp.plane.c⟩, [cp]⟩, ?_, ?_⟩
      · simp [insertPlane]
      · simpa using parallelTest_self cp.plane
  | cons g0 rest ih =>
      simp only [insertPlane]
      by_cases hp : parallelTest cp.plane g0.planes.headI.plane = true
      · rw [if_pos hp]
        refine ⟨⟨g0.normal, g0.planes ++ [cp]⟩, List.mem_cons_self _ _, ?_⟩
        rwa [headI_append_of_ne_nil _ _ (h g0 (List.mem_cons_self _ _))]
      · rw [if_neg hp]
        rcases ih (fun g' hg' => h g' (List.mem_cons_of_mem _ hg')) with
          ⟨g, hg, hh⟩
        exact ⟨g, List.mem_cons_of_mem _ hg, hh⟩

theorem foldl_insertPlane_planes_ne_nil (l : List ContourPlane) :
    ∀ acc : List PlaneGroup, (∀ g ∈ acc, g.planes ≠ []) →
      ∀ g ∈ l.foldl insertPlane acc, g.planes ≠ [] := by
  induction l with
  | nil => intro acc h; simpa using h
  | cons x xs ih =>
      intro acc h
      simp only [List.foldl_cons]
      exact ih _ (insertPlane_planes_ne_nil h x)

theorem foldl_insertPlane_preserves_witness (l : List ContourPlane) :
    ∀ acc : List PlaneGroup, (∀ g ∈ acc, g.planes ≠ []) →
      ∀ cp : ContourPlane,
        (∃ g ∈ acc, parallelTest cp.plane g.planes.headI.plane = true) →
        ∃ g ∈ l.foldl insertPlane acc,
          parallelTest cp.plane g.planes.headI.plane = true := by
  induction l with
  | nil => intro acc _ cp h; simpa using h
  | cons x xs ih =>
      intro acc hne cp h
      simp only [List.foldl_cons]
      rcases h with ⟨g, hg, hpar⟩
      rcases insertPlane_preserves_heads hne x hg with ⟨g', hg', hh⟩
      exact ih _ (insertPlane_planes_ne_nil hne x) cp ⟨g', hg', by rw [hh]; exact hpar⟩

theorem foldl_insertPlane_covers (l : List ContourPlane) :
    ∀ acc : List PlaneGroup, (∀ g ∈ acc, g.planes ≠ []) →
      ∀ cp ∈ l, ∃ g ∈ l.foldl insertPlane acc,
        parallelTest cp.plane g.planes.headI.plane = true := by
  induction l with
  | nil => intro acc _ cp h; cases h
  | cons x xs ih =>
      intro acc hne cp hcp
      simp only [List.foldl_cons]
      rcases List.mem_cons.mp hcp with h1 | h1
      · subst h1
        exact foldl_insertPlane_preserves_witness xs _
          (insertPlane_planes_ne_nil hne cp) cp
          (insertPlane_self_parallel hne cp)
      · exact ih _ (insertPlane_planes_ne_nil hne x) cp h1

/-- Every plane is parallel (in the source's sense) to the first member of
some group of the classification it produced. -/
theorem classifyPlanes_covers (planes : List ContourPlane) :
    ∀ cp ∈ planes, ∃ g ∈ classifyPlanes planes,
      parallelTest cp.plane g.planes.headI.plane = true := by
  intro cp hcp
  exact foldl_insertPlane_covers planes [] (by simp) cp hcp

/-- The non-parallel filter of `computeNonParallelPlaneCells` keeps nothing:
every plane matches the first member of the group it was classified into. -/
theorem nonParallelSelection_classify_eq_nil (planes : List ContourPlane) :
    nonParallelSelection planes (classifyPlanes planes) = [] := by
  unfold nonParallelSelection
  rw [List.filter_eq_nil_iff]
  intro cp hcp
  rcases classifyPlanes_covers planes cp hcp with ⟨g, hg, hpar⟩
  simp only [Bool.not_eq_true', Bool.not_eq_false]
  exact List.any_eq_true.mpr ⟨g, hg, hpar⟩

/-- Claim C1: for every plane set (input plus closure) in which every plane
has a nonzero normal, the non-parallel set computed by
`computeNonParallelPlaneCells` is empty — each plane is parallel within
tolerance to the first member of the group it was classified into — and
therefore every cell returned by `computeCells` comes from the parallel slab
phase. -/
theorem nonparallel_set_empty_and_cells_all_slabs (planes : List ContourPlane)
    (h : ∀ cp ∈ planes,
      ¬(cp.plane.a = 0 ∧ cp.plane.b = 0 ∧ cp.plane.c = 0)) :
    nonParallelSelection planes (classifyPlanes planes) = [] ∧
      computeCells planes = computeParallelPlaneCells (classifyPlanes planes) := by
  have h1 := nonParallelSelection_classify_eq_nil planes
  refine ⟨h1, ?_⟩
  unfold computeCells computeNonParallelPlaneCells
  rw [h1]
  simp

/-- Concrete instantiation of the previous theorem at a one-plane input. -/
theorem nonparallel_set_empty_and_cells_all_slabs_witness :
    (∀ cp ∈ [({ plane := ⟨1, 0, 0, 0⟩ } : ContourPlane)],
      ¬(cp.plane.a = 0 ∧ cp.plane.b = 0 ∧ cp.plane.c = 0)) ∧
    (nonParallelSelection [({ plane := ⟨1, 0, 0, 0⟩ } : ContourPlane)]
        (classifyPlanes [({ plane := ⟨1, 0, 0, 0⟩ } : ContourPlane)]) = [] ∧
      computeCells [({ plane := ⟨1, 0, 0, 0⟩ } : ContourPlane)] =
        computeParallelPlaneCells
          (classifyPlanes [({ plane := ⟨1, 0, 0, 0⟩ } : ContourPlane)])) :=
  ⟨by decide, nonparallel_set_empty_and_cells_all_slabs _ (by decide)⟩

theorem mem_insertByD {b cp : ContourPlane} {l : List ContourPlane} :
    b ∈ insertByD cp l ↔ b = cp ∨ b ∈ l := by
  induction l with
  | nil => simp [insertByD]
  | cons x xs ih =>
      simp only [insertByD]
      by_cases hc : cp.plane.d ≤ x.plane.d
      · rw [if_pos hc]
        simp [List.mem_cons]
      · rw [if_neg hc]
        rw [List.mem_cons, ih, List.mem_cons]
        tauto

theorem insertByD_perm (cp : ContourPlane) (l : List ContourPlane) :
    (insertByD cp l).Perm (cp :: l) := by
  induction l with
  | nil => simp [insertByD]
  | cons x xs ih =>
      simp only [insertByD]
      by_cases hc : cp.plane.d ≤ x.plane.d
      · rw [if_pos hc]
      · rw [if_neg hc]
        exact (ih.cons x).trans (List.Perm.swap cp x xs)

theorem sortByD_perm (l : List ContourPlane) : (sortByD l).Perm l := by
  induction l with
  | nil => simp [sortByD]
  | cons x xs ih =>
      have : sortByD (x :: xs) = insertByD x (sortByD xs) := rfl
      rw [this]
      exact (insertByD_perm x (sortByD xs)).trans (ih.cons x)

theorem length_sortByD (l : List ContourPlane) :
    (sortByD l).length = l.length := (sortByD_perm l).length_eq

theorem sorted_insertByD {l : List ContourPlane}
    (h : l.Sorted fun a b : ContourPlane => a.plane.d ≤ b.plane.d)
    (cp : ContourPlane) :
    (insertByD cp l).Sorted fun a b : ContourPlane => a.plane.d ≤ b.plane.d := by
  induction l with
  | nil => simp [insertByD]
  | cons x xs ih =>
      rw [List.sorted_cons] at h
      simp only [insertByD]
      by_cases hc : cp.plane.d ≤ x.plane.d
      · rw [if_pos hc]
        rw [List.sorted_cons]
        refine ⟨?_, List.sorted_cons.mpr h⟩
        intro b hb
        rcases List.mem_cons.mp hb with h1 | h1
        · subst h1; exact hc
        · exact le_trans hc (h.1 b h1)
      · rw [if_neg hc]
        rw [List.sorted_cons]
        refine ⟨?_, ih h.2⟩
        intro b hb
        rcases mem_insertByD.mp hb with h1 | h1
        · subst h1; exact le_of_not_le hc
        · exact h.1 b h1

theorem sorted_sortByD (l : List ContourPlane) :
    (sortByD l).Sorted fun a b : ContourPlane => a.plane.d ≤ b.plane.d := by
  induction l with
  | nil => simp [sortByD]
  | cons x xs ih => exact sorted_insertByD ih x

theorem mem_zip_tail_consecutive (s : List ContourPlane) :
    ∀ pr ∈ s.zip s.tail, ∃ i, i + 1 < s.length ∧
      pr.1 = s.getD i default ∧ pr.2 = s.getD (i + 1) default := by
  induction s with
  | nil => intro pr hpr; cases hpr
  | cons x xs ih =>
      intro pr hpr
      cases xs with
      | nil => cases hpr
      | cons y ys =>
          rcases List.mem_cons.mp hpr with h1 | h1
          · subst h1
            exact ⟨0, by simp, rfl, rfl⟩
          · rcases ih pr h1 with ⟨i, hi, h2, h3⟩
            exact ⟨i + 1, by simpa using Nat.succ_lt_succ hi, h2, h3⟩

theorem createSlabCell_vertices_length (bottom top : Plane) :
    (createSlabCell bottom top).vertices.length = 8 := by
  simp [createSlabCell]

theorem createSlabCell_edges_length (bottom top : Plane) :
    (createSlabCell bottom top).edges.length = 12 := rfl

theorem createSlabCell_boundaryPlanes (bottom top : Plane) :
    (createSlabCell bottom top).boundaryPlanes = [bottom, top] := rfl

/-- Claim C4: a parallel group with `N ≥ 2` planes yields exactly `N - 1`
slab cells, one per consecutive pair of the planes sorted ascending by their
`d` offset; every slab cell has exactly 8 vertices, 12 edges, and exactly the
consecutive pair `{bottom, top}` as boundary planes; groups with fewer than 2
members yield no cells. -/
theorem slab_builder_emits_consecutive_slabs (g : PlaneGroup) :
    (g.planes.length < 2 → slabCellsOfGroup g = []) ∧
    (2 ≤ g.planes.length →
      (slabCellsOfGroup g).length = g.planes.length - 1 ∧
      ((sortByD g.planes).Sorted fun a b : ContourPlane =>
        a.plane.d ≤ b.plane.d) ∧
      (sortByD g.planes).Perm g.planes ∧
      ∀ c ∈ slabCellsOfGroup g,
        c.vertices.length = 8 ∧ c.edges.length = 12 ∧
        ∃ i, i + 1 < (sortByD g.planes).length ∧
          c.boundaryPlanes = [((sortByD g.planes).getD i default).plane,
            ((sortByD g.planes).getD (i + 1) default).plane]) := by
  constructor
  · intro h
    unfold slabCellsOfGroup
    rw [if_pos h]
  · intro h
    have hnot : ¬ g.planes.length < 2 := not_lt.mpr h
    refine ⟨?_, sorted_sortByD g.planes, sortByD_perm g.planes, ?_⟩
    · unfold slabCellsOfGroup
      rw [if_neg hnot]
      simp only [List.length_map, List.length_zip, List.length_tail,
        length_sortByD]
      exact min_eq_right (Nat.sub_le _ _)
    · intro c hc
      unfold slabCellsOfGroup at hc
      rw [if_neg hnot] at hc
      rcases List.mem_map.mp hc with ⟨pr, hpr, hceq⟩
      rcases mem_zip_tail_consecutive _ pr hpr with ⟨i, hi, h1, h2⟩
      subst hceq
      refine ⟨createSlabCell_vertices_length _ _,
        createSlabCell_edges_length _ _, ⟨i, hi, ?_⟩⟩
      rw [createSlabCell_boundaryPlanes, h1, h2]

/-- Concrete instantiation of the slab builder theorem: a three-plane group
yields two slab cells, a one-plane group yields none. -/
theorem slab_builder_emits_consecutive_slabs_witness :
    ((⟨⟨0, 0, 1⟩, [{ plane := ⟨0, 0, 1, 3⟩ }]⟩ : PlaneGroup).planes.length < 2 ∧
      slabCellsOfGroup ⟨⟨0, 0, 1⟩, [{ plane := ⟨0, 0, 1, 3⟩ }]⟩ = []) ∧
    (2 ≤ (⟨⟨0, 0, 1⟩, [{ plane := ⟨0, 0, 1, 3⟩ }, { plane := ⟨0, 0, 1, 1⟩ },
        { plane := ⟨0, 0, 1, 2⟩ }]⟩ : PlaneGroup).planes.length ∧
      (slabCellsOfGroup ⟨⟨0, 0, 1⟩, [{ plane := ⟨0, 0, 1, 3⟩ },
        { plane := ⟨0, 0, 1, 1⟩ }, { plane := ⟨0, 0, 1, 2⟩ }]⟩).length =
        (⟨⟨0, 0, 1⟩, [{ plane := ⟨0, 0, 1, 3⟩ }, { plane := ⟨0, 0, 1, 1⟩ },
          { plane := ⟨0, 0, 1, 2⟩ }]⟩ : PlaneGroup).planes.length - 1) :=
  ⟨⟨by decide, (slab_builder_emits_consecutive_slabs _).1 (by decide)⟩,
   ⟨by decide, ((slab_builder_emits_consecutive_slabs _).2 (by decide)).1⟩⟩

/-- Negation of all four plane coefficients. -/
def negPlane (p : Plane) : Plane := ⟨-p.a, -p.b, -p.c, -p.d⟩

theorem nlen_negPlane (p : Plane) : nlen (negPlane p) = nlen p := by
  unfold nlen negPlane
  push_cast
  ring_nf

theorem arePlanesParallel_symm_iff (p q : Plane) :
    arePlanesParallel p q ↔ arePlanesParallel q p := by
  unfold arePlanesParallel
  rw [abs_sub_comm (abs ((p.a : ℝ) / nlen p)),
    abs_sub_comm (abs ((p.b : ℝ) / nlen p)),
    abs_sub_comm (abs ((p.c : ℝ) / nlen p))]

theorem arePlanesParallel_negPlane_left (p q : Plane) :
    arePlanesParallel (negPlane p) q ↔ arePlanesParallel p q := by
  unfold arePlanesParallel
  rw [nlen_negPlane]
  have ha : abs (((negPlane p).a : ℝ) / nlen p) = abs ((p.a : ℝ) / nlen p) := by
    show abs (((-p.a : ℚ) : ℝ) / nlen p) = _
    push_cast
    rw [neg_div, abs_neg]
  have hb : abs (((negPlane p).b : ℝ) / nlen p) = abs ((p.b : ℝ) / nlen p) := by
    show abs (((-p.b : ℚ) : ℝ) / nlen p) = _
    push_cast
    rw [neg_div, abs_neg]
  have hc : abs (((negPlane p).c : ℝ) / nlen p) = abs ((p.c : ℝ) / nlen p) := by
    show abs (((-p.c : ℚ) : ℝ) / nlen p) = _
    push_cast
    rw [neg_div, abs_neg]
  rw [ha, hb, hc]

/-- Claim C8: `arePlanesParallel` is symmetric, and negating all four
coefficients of either argument does not change the classification. -/
theorem arePlanesParallel_symm_and_sign_invariant (p q : Plane) :
    parallelTest p q = parallelTest q p ∧
    parallelTest (negPlane p) q = parallelTest p q ∧
    parallelTest p (negPlane q) = parallelTest p q := by
  refine ⟨?_, ?_, ?_⟩
  · unfold parallelTest
    exact decide_eq_decide.mpr (arePlanesParallel_symm_iff p q)
  · unfold parallelTest
    exact decide_eq_decide.mpr (arePlanesParallel_negPlane_left p q)
  · unfold parallelTest
    exact decide_eq_decide.mpr
      ((arePlanesParallel_symm_iff p (negPlane q)).trans
        ((arePlanesParallel_negPlane_left q p).trans
          (arePlanesParallel_symm_iff q p)))

theorem ptAxisXY (s1 s2 d1 d2 : ℚ) (h1 : |s1| = 1) (h2 : |s2| = 1) :
    parallelTest ⟨s1, 0, 0, d1⟩ ⟨0, s2, 0, d2⟩ = false := by
  apply parallelTest_eq_false_of _ _ 1 1 (by norm_num) (by norm_num)
  · show (1 : ℚ) * 1 = s1 * s1 + 0 * 0 + 0 * 0
    rw [← abs_mul_abs_self s1, h1]
    norm_num
  · show (1 : ℚ) * 1 = 0 * 0 + s2 * s2 + 0 * 0
    rw [← abs_mul_abs_self s2, h2]
    norm_num
  · rintro ⟨hA, -, -⟩
    rw [div_one, div_one] at hA
    have hA' : abs (abs s1 - abs (0 : ℚ)) < tol := hA
    rw [h1] at hA'
    norm_num [tol] at hA'

theorem ptAxisYX (s1 s2 d1 d2 : ℚ) (h1 : |s1| = 1) (h2 : |s2| = 1) :
    parallelTest ⟨0, s1, 0, d1⟩ ⟨s2, 0, 0, d2⟩ = false := by
  apply parallelTest_eq_false_of _ _ 1 1 (by norm_num) (by norm_num)
  · show (1 : ℚ) * 1 = 0 * 0 + s1 * s1 + 0 * 0
    rw [← abs_mul_abs_self s1, h1]
    norm_num
  · show (1 : ℚ) * 1 = s2 * s2 + 0 * 0 + 0 * 0
    rw [← abs_mul_abs_self s2, h2]
    norm_num
  · rintro ⟨hA, -, -⟩
    rw [div_one, div_one] at hA
    have hA' : abs (abs (0 : ℚ) - abs s2) < tol := hA
    rw [h2] at hA'
    norm_num [tol] at hA'

theorem ptAxisXZ (s1 s2 d1 d2 : ℚ) (h1 : |s1| = 1) (h2 : |s2| = 1) :
    parallelTest ⟨s1, 0, 0, d1⟩ ⟨0, 0, s2, d2⟩ = false := by
  apply parallelTest_eq_false_of _ _ 1 1 (by norm_num) (by norm_num)
  · show (1 : ℚ) * 1 = s1 * s1 + 0 * 0 + 0 * 0
    rw [← abs_mul_abs_self s1, h1]
    norm_num
  · show (1 : ℚ) * 1 = 0 * 0 + 0 * 0 + s2 * s2
    rw [← abs_mul_abs_self s2, h2]
    norm_num
  · rintro ⟨hA, -, -⟩
    rw [div_one, div_one] at hA
    have hA' : abs (abs s1 - abs (0 : ℚ)) < tol := hA
    rw [h1] at hA'
    norm_num [tol] at hA'

theorem ptAxisYZ (s1 s2 d1 d2 : ℚ) (h1 : |s1| = 1) (h2 : |s2| = 1) :
    parallelTest ⟨0, s1, 0, d1⟩ ⟨0, 0, s2, d2⟩ = false := by
  apply parallelTest_eq_false_of _ _ 1 1 (by norm_num) (by norm_num)
  · show (1 : ℚ) * 1 = 0 * 0 + s1 * s1 + 0 * 0
    rw [← abs_mul_abs_self s1, h1]
    norm_num
  · show (1 : ℚ) * 1 = 0 * 0 + 0 * 0 + s2 * s2
    rw [← abs_mul_abs_self s2, h2]
    norm_num
  · rintro ⟨-, hB, -⟩
    rw [div_one, div_one] at hB
    have hB' : abs (abs s1 - abs (0 : ℚ)) < tol := hB
    rw [h1] at hB'
    norm_num [tol] at hB'

/-- Input planes used in the concrete scenarios below. -/
def planeA : Plane := ⟨1, 0, 0, 0⟩

def planeB : Plane := ⟨0, 1, 0, 0⟩

def planeZ : Plane := ⟨0, 0, 1, 0⟩

def planeW : Plane := ⟨3, 4, 0, 0⟩

def planeW5 : Plane := ⟨3, 4, 0, -5⟩

theorem ptAB : parallelTest planeA planeB = false :=
  ptAxisXY 1 1 0 0 (by norm_num) (by norm_num)

theorem ptBA : parallelTest planeB planeA = false :=
  ptAxisYX 1 1 0 0 (by norm_num) (by norm_num)

theorem ptAZ : parallelTest planeA planeZ = false :=
  ptAxisXZ 1 1 0 0 (by norm_num) (by norm_num)

theorem ptBZ : parallelTest planeB planeZ = false :=
  ptAxisYZ 1 1 0 0 (by norm_num) (by norm_num)

theorem ptAW : parallelTest planeA planeW = false :=
  parallelTest_eq_false_of _ _ 1 5 (by norm_num) (by norm_num)
    (by norm_num [planeA]) (by norm_num [planeW])
    (by norm_num [planeA, planeW, tol, abs_of_nonneg, abs_of_nonpos])

theorem ptWA : parallelTest planeW planeA = false :=
  parallelTest_eq_false_of _ _ 5 1 (by norm_num) (by norm_num)
    (by norm_num [planeW]) (by norm_num [planeA])
    (by norm_num [planeW, planeA, tol, abs_of_nonneg, abs_of_nonpos])

theorem ptBW : parallelTest planeB planeW = false :=
  parallelTest_eq_false_of _ _ 1 5 (by norm_num) (by norm_num)
    (by norm_num [planeB]) (by norm_num [planeW])
    (by norm_num [planeB, planeW, tol, abs_of_nonneg, abs_of_nonpos])

theorem ptWB : parallelTest planeW planeB = false :=
  parallelTest_eq_false_of _ _ 5 1 (by norm_num) (by norm_num)
    (by norm_num [planeW]) (by norm_num [planeB])
    (by norm_num [planeW, planeB, tol, abs_of_nonneg, abs_of_nonpos])

theorem ptAW5 : parallelTest planeA planeW5 = false :=
  parallelTest_eq_false_of _ _ 1 5 (by norm_num) (by norm_num)
    (by norm_num [planeA]) (by norm_num [planeW5])
    (by norm_num [planeA, planeW5, tol, abs_of_nonneg, abs_of_nonpos])

theorem ptBW5 : parallelTest planeB planeW5 = false :=
  parallelTest_eq_false_of _ _ 1 5 (by norm_num) (by norm_num)
    (by norm_num [planeB]) (by norm_num [planeW5])
    (by norm_num [planeB, planeW5, tol, abs_of_nonneg, abs_of_nonpos])

theorem ptZW5 : parallelTest planeZ planeW5 = false :=
  parallelTest_eq_false_of _ _ 1 5 (by norm_num) (by norm_num)
    (by norm_num [planeZ]) (by norm_num [planeW5])
    (by norm_num [planeZ, planeW5, tol, abs_of_nonneg, abs_of_nonpos])

theorem mem_triples {n : ℕ} {t : ℕ × ℕ × ℕ} (h : t ∈ triples n) :
    t.1 < t.2.1 ∧ t.2.1 < t.2.2 ∧ t.2.2 < n := by
  rcases t with ⟨i, j, k⟩
  simp only [triples, List.mem_flatMap, List.mem_filter, List.mem_range,
    List.mem_map, decide_eq_true_eq] at h
  obtain ⟨i', _, j', ⟨_, hij⟩, k', ⟨⟨hkn, hjk⟩, heq⟩⟩ := h
  obtain ⟨rfl, rfl, rfl⟩ := Prod.mk.injEq .. ▸ heq
  exact ⟨hij, hjk, hkn⟩

theorem mem_pairsIdx {n : ℕ} {pr : ℕ × ℕ} (h : pr ∈ pairsIdx n) :
    pr.1 < pr.2 ∧ pr.2 < n := by
  rcases pr with ⟨i, j⟩
  simp only [pairsIdx, List.mem_flatMap, List.mem_filter, List.mem_range,
    List.mem_map, decide_eq_true_eq] at h
  obtain ⟨i', _, j', ⟨⟨hjn, hij⟩, heq⟩⟩ := h
  obtain ⟨rfl, rfl⟩ := Prod.mk.injEq .. ▸ heq
  exact ⟨hij, hjn⟩

theorem tripleValid_eq_true_iff (planes : List ContourPlane) (i j k : ℕ) :
    tripleValid planes i j k = true ↔
      ∀ q ∈ planes,
        computeDistance q.plane (tripleVertex planes i j k).pos ≤ tol := by
  unfold tripleValid
  rw [Bool.not_eq_true', List.any_eq_false]
  constructor
  · intro h q hq
    have := h q hq
    simp only [decide_eq_true_eq] at this
    exact not_lt.mp this
  · intro h q hq
    simp only [decide_eq_true_eq]
    exact not_lt.mpr (h q hq)

theorem mem_findIntersectionVertices {planes : List ContourPlane} {v : Vertex}
    (hv : v ∈ findIntersectionVertices planes) :
    ∃ i j k, i < j ∧ j < k ∧ k < planes.length ∧
      tripleParallelSkip planes i j k = false ∧
      tripleValid planes i j k = true ∧
      v = tripleVertex planes i j k := by
  unfold findIntersectionVertices at hv
  rcases List.mem_filterMap.mp hv with ⟨t, ht, hacc⟩
  rcases t with ⟨i, j, k⟩
  have hmem := mem_triples ht
  simp only [acceptTriple] at hacc
  by_cases hs : tripleParallelSkip planes i j k = true
  · rw [if_pos hs] at hacc
    cases hacc
  · rw [if_neg hs] at hacc
    have hsf : tripleParallelSkip planes i j k = false := by
      revert hs
      cases tripleParallelSkip planes i j k <;> simp
    by_cases hval : tripleValid planes i j k = true
    · rw [if_pos hval] at hacc
      exact ⟨i, j, k, hmem.1, hmem.2.1, hmem.2.2, hsf, hval,
        (Option.some.inj hacc).symm⟩
    · rw [if_neg hval] at hacc
      cases hacc

/-- Every vertex accepted by `findIntersectionVertices` satisfies the
one-sided distance bound `computeDistance ≤ tol` against every plane of the
set. -/
theorem findIntersectionVertices_dist {planes : List ContourPlane} {v : Vertex}
    (hv : v ∈ findIntersectionVertices planes) :
    ∀ q ∈ planes, computeDistance q.plane v.pos ≤ tol := by
  rcases mem_findIntersectionVertices hv with ⟨i, j, k, _, _, _, _, hval, rfl⟩
  exact (tripleValid_eq_true_iff planes i j k).mp hval

theorem mem_edges_createCell {vs : List Vertex} {bps : List Plane} {e : Edge}
    (he : e ∈ (createCellFromIntersection vs bps).edges) :
    e.vertexIndex1 < e.vertexIndex2 ∧ e.vertexIndex2 < vs.length ∧
      2 ≤ ((vs.getD e.vertexIndex1 default).associatedPlanes.inter
        (vs.getD e.vertexIndex2 default).associatedPlanes).length := by
  simp only [createCellFromIntersection] at he
  rcases List.mem_filterMap.mp he with ⟨pr, hpr, hcand⟩
  rcases pr with ⟨i, j⟩
  have hij := mem_pairsIdx hpr
  simp only [edgeCandidate] at hcand
  by_cases h2 : 2 ≤ ((vs.getD i default).associatedPlanes.inter
      (vs.getD j default).associatedPlanes).length
  · rw [if_pos h2] at hcand
    obtain rfl := (Option.some.inj hcand).symm
    exact ⟨hij.1, hij.2, h2⟩
  · rw [if_neg h2] at hcand
    cases hcand

theorem getD_mem_of_lt {α : Type} [Inhabited α] {l : List α} {i : ℕ}
    (h : i < l.length) : l.getD i default ∈ l := by
  rw [List.getD_eq_getElem l default h]
  exact List.getElem_mem h

/-- Claim C5 (amended): every vertex accepted by the non-parallel solver
satisfies the one-sided signed bound `computeDistance ≤ 0.0001` against every
plane of the full set — the code checks only `distance > 0.0001`, not the
two-sided plane equation — and is tagged with the strictly ascending list of
the three contributing plane indices. -/
theorem accepted_vertices_one_sided_and_sorted_tags
    (planes : List ContourPlane) (v : Vertex)
    (hv : v ∈ findIntersectionVertices planes) :
    (∀ q ∈ planes, computeDistance q.plane v.pos ≤ tol) ∧
    ∃ i j k : ℕ, i < j ∧ j < k ∧ k < planes.length ∧
      v.associatedPlanes = [(i : ℤ), (j : ℤ), (k : ℤ)] := by
  refine ⟨findIntersectionVertices_dist hv, ?_⟩
  rcases mem_findIntersectionVertices hv with ⟨i, j, k, hij, hjk, hkn, -, -, rfl⟩
  exact ⟨i, j, k, hij, hjk, hkn, rfl⟩

/-- Claim C7 (amended): in every cell assembled by the non-parallel phase,
each edge joins two vertices that share at least two associated plane
indices, and both endpoints satisfy the one-sided bound
`computeDistance ≤ 0.0001` against every boundary plane of the cell.  (Slab
cells do not satisfy the claimed invariant; see the counterexample.) -/
theorem assembled_cell_edges_share_planes_and_feasible
    (planes : List ContourPlane) (cell : ConvexCell)
    (hc : cell ∈ intersectionCells planes) (e : Edge) (he : e ∈ cell.edges) :
    2 ≤ ((cell.vertices.getD e.vertexIndex1 default).associatedPlanes.inter
      (cell.vertices.getD e.vertexIndex2 default).associatedPlanes).length ∧
    ∀ q ∈ cell.boundaryPlanes,
      computeDistance q (cell.vertices.getD e.vertexIndex1 default).pos ≤ tol ∧
      computeDistance q (cell.vertices.getD e.vertexIndex2 default).pos ≤ tol := by
  unfold intersectionCells at hc
  by_cases hemp : (findIntersectionVertices planes).isEmpty = true
  · rw [if_pos hemp] at hc
    cases hc
  · rw [if_neg hemp] at hc
    obtain rfl := List.mem_singleton.mp hc
    have hedge :=
      @mem_edges_createCell (findIntersectionVertices planes)
        (planes.map fun cp => cp.plane) e he
    refine ⟨hedge.2.2, ?_⟩
    intro q hq
    rcases List.mem_map.mp hq with ⟨cp, hcp, rfl⟩
    have h1 : (findIntersectionVertices planes).getD e.vertexIndex1 default ∈
        findIntersectionVertices planes :=
      getD_mem_of_lt (lt_trans hedge.1 hedge.2.1)
    have h2 : (findIntersectionVertices planes).getD e.vertexIndex2 default ∈
        findIntersectionVertices planes :=
      getD_mem_of_lt hedge.2.1
    exact ⟨findIntersectionVertices_dist h1 cp hcp,
      findIntersectionVertices_dist h2 cp hcp⟩

/-- Three mutually non-parallel input planes `x = 0`, `y = 0`, `3x + 4y = 0`
(all containing the z-axis). -/
def threePlanes : List ContourPlane :=
  [{ plane := planeA }, { plane := planeB }, { plane := planeW }]

theorem classify_threePlanes :
    classifyPlanes threePlanes =
      [⟨⟨1, 0, 0⟩, [{ plane := planeA }]⟩,
       ⟨⟨0, 1, 0⟩, [{ plane := planeB }]⟩,
       ⟨⟨3, 4, 0⟩, [{ plane := planeW }]⟩] := by
  unfold classifyPlanes threePlanes
  simp only [List.foldl_cons, List.foldl_nil, insertPlane, List.headI,
    ptBA, ptWA, ptWB, Bool.false_eq_true, if_false]
  simp [planeA, planeB, planeW]

/-- Modelled from the spec (section 4.4): the working set the specification
prescribes for the non-parallel phase — the planes belonging to a singleton
parallel group.  No function of the source computes this set; the source's
filter is `nonParallelSelection`. -/
noncomputable def specSingletonGroupPlanes (planes : List ContourPlane) :
    List ContourPlane :=
  ((classifyPlanes planes).filter fun g => g.planes.length == 1).flatMap
    fun g => g.planes

/-- Claim C2 (refuted): on three mutually non-parallel planes the
spec-prescribed working set (singleton-group planes) has all three planes,
but the source's filter selects nothing — every plane is parallel to its own
group's first member — so the phase is unconditionally a silent no-op. -/
theorem nonparallel_working_set_empty_not_singletons :
    (specSingletonGroupPlanes threePlanes).length = 3 ∧
    nonParallelSelection threePlanes (classifyPlanes threePlanes) = [] ∧
    computeNonParallelPlaneCells threePlanes = [] := by
  refine ⟨?_, nonParallelSelection_classify_eq_nil _, ?_⟩
  · unfold specSingletonGroupPlanes
    rw [classify_threePlanes]
    decide
  · unfold computeNonParallelPlaneCells
    rw [nonParallelSelection_classify_eq_nil]
    simp

theorem skip_threePlanes_012 : tripleParallelSkip threePlanes 0 1 2 = false := by
  show (parallelTest planeA planeB || parallelTest planeB planeW ||
    parallelTest planeA planeW) = false
  rw [ptAB, ptBW, ptAW]
  rfl

theorem vertex_threePlanes_012 :
    tripleVertex threePlanes 0 1 2 = ⟨0, 0, 0, [0, 1, 2]⟩ := by
  unfold tripleVertex computePlaneIntersection interDet
  norm_num [threePlanes, planeA, planeB, planeW]

theorem valid_threePlanes_012 : tripleValid threePlanes 0 1 2 = true := by
  rw [tripleValid_eq_true_iff, vertex_threePlanes_012]
  intro q hq
  simp only [threePlanes, List.mem_cons, List.not_mem_nil, or_false] at hq
  rcases hq with rfl | rfl | rfl <;>
    norm_num [computeDistance, Vertex.pos, planeA, planeB, planeW, tol]

theorem accept_threePlanes_012 :
    acceptTriple threePlanes (0, 1, 2) = some ⟨0, 0, 0, [0, 1, 2]⟩ := by
  simp only [acceptTriple, skip_threePlanes_012, valid_threePlanes_012,
    vertex_threePlanes_012, Bool.false_eq_true, if_false, if_true]

/-- Claim C6 (refuted): three pairwise non-parallel planes sharing the z-axis
form a singular system (`interDet = 0`), yet the triple is not skipped —
`glm::inverse` throws nothing, so the catch-block diagnostic is dead code and
the garbage point passes the validity filter and is accepted as a vertex. -/
theorem singular_triple_accepted_not_skipped :
    interDet planeA planeB planeW = 0 ∧
    findIntersectionVertices threePlanes = [⟨0, 0, 0, [0, 1, 2]⟩] := by
  constructor
  · norm_num [interDet, planeA, planeB, planeW]
  · unfold findIntersectionVertices
    rw [show threePlanes.length = 3 from rfl,
      show triples 3 = [(0, 1, 2)] from by decide]
    rw [List.filterMap_cons, accept_threePlanes_012]
    rfl

/-- Four planes through near-common geometry: `x = 0`, `y = 0`, `z = 0` and
`3x + 4y - 5 = 0`; the last has signed distance `-5` at the origin. -/
def fourPlanes : List ContourPlane :=
  [{ plane := planeA }, { plane := planeB }, { plane := planeZ },
   { plane := planeW5 }]

theorem skip_fourPlanes_012 : tripleParallelSkip fourPlanes 0 1 2 = false := by
  show (parallelTest planeA planeB || parallelTest planeB planeZ ||
    parallelTest planeA planeZ) = false
  rw [ptAB, ptBZ, ptAZ]
  rfl

theorem skip_fourPlanes_013 : tripleParallelSkip fourPlanes 0 1 3 = false := by
  show (parallelTest planeA planeB || parallelTest planeB planeW5 ||
    parallelTest planeA planeW5) = false
  rw [ptAB, ptBW5, ptAW5]
  rfl

theorem skip_fourPlanes_023 : tripleParallelSkip fourPlanes 0 2 3 = false := by
  show (parallelTest planeA planeZ || parallelTest planeZ planeW5 ||
    parallelTest planeA planeW5) = false
  rw [ptAZ, ptZW5, ptAW5]
  rfl

theorem skip_fourPlanes_123 : tripleParallelSkip fourPlanes 1 2 3 = false := by
  show (parallelTest planeB planeZ || parallelTest planeZ planeW5 ||
    parallelTest planeB planeW5) = false
  rw [ptBZ, ptZW5, ptBW5]
  rfl

theorem vertex_fourPlanes_012 :
    tripleVertex fourPlanes 0 1 2 = ⟨0, 0, 0, [0, 1, 2]⟩ := by
  unfold tripleVertex computePlaneIntersection interDet
  norm_num [fourPlanes, planeA, planeB, planeZ]

theorem vertex_fourPlanes_013 :
    tripleVertex fourPlanes 0 1 3 = ⟨0, 0, 0, [0, 1, 3]⟩ := by
  unfold tripleVertex computePlaneIntersection interDet
  norm_num [fourPlanes, planeA, planeB, planeW5]

theorem vertex_fourPlanes_023 :
    tripleVertex fourPlanes 0 2 3 = ⟨0, 5, 0, [0, 2, 3]⟩ := by
  unfold tripleVertex computePlaneIntersection interDet
  norm_num [fourPlanes, planeA, planeZ, planeW5]

theorem vertex_fourPlanes_123 :
    tripleVertex fourPlanes 1 2 3 = ⟨0, 5, 0, [1, 2, 3]⟩ := by
  unfold tripleVertex computePlaneIntersection interDet
  norm_num [fourPlanes, planeB, planeZ, planeW5]

theorem valid_fourPlanes_012 : tripleValid fourPlanes 0 1 2 = true := by
  rw [tripleValid_eq_true_iff, vertex_fourPlanes_012]
  intro q hq
  simp only [fourPlanes, List.mem_cons, List.not_mem_nil, or_false] at hq
  rcases hq with rfl | rfl | rfl | rfl <;>
    norm_num [computeDistance, Vertex.pos, planeA, planeB, planeZ, planeW5, tol]

theorem valid_fourPlanes_013 : tripleValid fourPlanes 0 1 3 = true := by
  rw [tripleValid_eq_true_iff, vertex_fourPlanes_013]
  intro q hq
  simp only [fourPlanes, List.mem_cons, List.not_mem_nil, or_false] at hq
  rcases hq with rfl | rfl | rfl | rfl <;>
    norm_num [computeDistance, Vertex.pos, planeA, planeB, planeZ, planeW5, tol]

theorem tripleValid_eq_false_iff (planes : List ContourPlane) (i j k : ℕ) :
    tripleValid planes i j k = false ↔
      ∃ q ∈ planes,
        tol < computeDistance q.plane (tripleVertex planes i j k).pos := by
  unfold tripleValid
  rw [Bool.not_eq_false', List.any_eq_true]
  simp only [decide_eq_true_eq]

theorem valid_fourPlanes_023 : tripleValid fourPlanes 0 2 3 = false := by
  rw [tripleValid_eq_false_iff, vertex_fourPlanes_023]
  refine ⟨{ plane := planeB }, ?_, ?_⟩
  · simp [fourPlanes]
  · norm_num [computeDistance, Vertex.pos, planeB, tol]

theorem valid_fourPlanes_123 : tripleValid fourPlanes 1 2 3 = false := by
  rw [tripleValid_eq_false_iff, vertex_fourPlanes_123]
  refine ⟨{ plane := planeB }, ?_, ?_⟩
  · simp [fourPlanes]
  · norm_num [computeDistance, Vertex.pos, planeB, tol]

theorem accept_fourPlanes_012 :
    acceptTriple fourPlanes (0, 1, 2) = some ⟨0, 0, 0, [0, 1, 2]⟩ := by
  simp only [acceptTriple, skip_fourPlanes_012, valid_fourPlanes_012,
    vertex_fourPlanes_012, Bool.false_eq_true, if_false, if_true]

theorem accept_fourPlanes_013 :
    acceptTriple fourPlanes (0, 1, 3) = some ⟨0, 0, 0, [0, 1, 3]⟩ := by
  simp only [acceptTriple, skip_fourPlanes_013, valid_fourPlanes_013,
    vertex_fourPlanes_013, Bool.false_eq_true, if_false, if_true]

theorem accept_fourPlanes_023 : acceptTriple fourPlanes (0, 2, 3) = none := by
  simp only [acceptTriple, skip_fourPlanes_023, valid_fourPlanes_023,
    Bool.false_eq_true, if_false]

theorem accept_fourPlanes_123 : acceptTriple fourPlanes (1, 2, 3) = none := by
  simp only [acceptTriple, skip_fourPlanes_123, valid_fourPlanes_123,
    Bool.false_eq_true, if_false]

theorem fiv_fourPlanes :
    findIntersectionVertices fourPlanes =
      [⟨0, 0, 0, [0, 1, 2]⟩, ⟨0, 0, 0, [0, 1, 3]⟩] := by
  unfold findIntersectionVertices
  rw [show fourPlanes.length = 4 from rfl,
    show triples 4 = [(0, 1, 2), (0, 1, 3), (0, 2, 3), (1, 2, 3)] from by decide]
  rw [List.filterMap_cons, accept_fourPlanes_012]
  rw [List.filterMap_cons, accept_fourPlanes_013]
  rw [List.filterMap_cons, accept_fourPlanes_023]
  rw [List.filterMap_cons, accept_fourPlanes_123]
  rfl

/-- Claim C5 (counterexample): the accepted vertex `(0,0,0)` of `fourPlanes`
violates the two-sided plane equation of the fourth plane by `5`, far beyond
the `0.0001` tolerance — the filter only bounds the signed distance from
above. -/
theorem accepted_vertex_violates_plane_equation :
    ∃ v ∈ findIntersectionVertices fourPlanes,
      ∃ q ∈ fourPlanes, ¬ (abs (computeDistance q.plane v.pos) ≤ tol) := by
  refine ⟨⟨0, 0, 0, [0, 1, 2]⟩, ?_, { plane := planeW5 }, ?_, ?_⟩
  · rw [fiv_fourPlanes]
    exact List.mem_cons_self _ _
  · simp [fourPlanes]
  · norm_num [computeDistance, Vertex.pos, planeW5, tol]

/-- The single cell assembled from the accepted vertices of `fourPlanes`. -/
def fourCell : ConvexCell :=
  createCellFromIntersection
    [⟨0, 0, 0, [0, 1, 2]⟩, ⟨0, 0, 0, [0, 1, 3]⟩]
    (fourPlanes.map fun cp => cp.plane)

theorem intersectionCells_fourPlanes :
    intersectionCells fourPlanes = [fourCell] := by
  unfold intersectionCells fourCell
  rw [fiv_fourPlanes]
  rfl

theorem fourCell_edges : fourCell.edges = [⟨0, 1⟩] := by decide

/-- Concrete instantiation of the amended C5 theorem at `fourPlanes`. -/
theorem accepted_vertices_one_sided_and_sorted_tags_witness :
    (⟨0, 0, 0, [0, 1, 2]⟩ : Vertex) ∈ findIntersectionVertices fourPlanes ∧
    ((∀ q ∈ fourPlanes,
        computeDistance q.plane (⟨0, 0, 0, [0, 1, 2]⟩ : Vertex).pos ≤ tol) ∧
      ∃ i j k : ℕ, i < j ∧ j < k ∧ k < fourPlanes.length ∧
        (⟨0, 0, 0, [0, 1, 2]⟩ : Vertex).associatedPlanes =
          [(i : ℤ), (j : ℤ), (k : ℤ)]) := by
  have hv : (⟨0, 0, 0, [0, 1, 2]⟩ : Vertex) ∈ findIntersectionVertices fourPlanes := by
    rw [fiv_fourPlanes]
    exact List.mem_cons_self _ _
  exact ⟨hv, accepted_vertices_one_sided_and_sorted_tags fourPlanes _ hv⟩

/-- Concrete instantiation of the amended C7 theorem at `fourPlanes`. -/
theorem assembled_cell_edges_share_planes_and_feasible_witness :
    fourCell ∈ intersectionCells fourPlanes ∧
    (⟨0, 1⟩ : Edge) ∈ fourCell.edges ∧
    (2 ≤ ((fourCell.vertices.getD 0 default).associatedPlanes.inter
      (fourCell.vertices.getD 1 default).associatedPlanes).length ∧
    ∀ q ∈ fourCell.boundaryPlanes,
      computeDistance q (fourCell.vertices.getD 0 default).pos ≤ tol ∧
      computeDistance q (fourCell.vertices.getD 1 default).pos ≤ tol) := by
  have hc : fourCell ∈ intersectionCells fourPlanes := by
    rw [intersectionCells_fourPlanes]
    exact List.mem_singleton_self _
  have he : (⟨0, 1⟩ : Edge) ∈ fourCell.edges := by
    rw [fourCell_edges]
    exact List.mem_singleton_self _
  exact ⟨hc, he,
    assembled_cell_edges_share_planes_and_feasible fourPlanes fourCell hc _ he⟩

/-- Two parallel input planes `z = 2` and `z = 1`. -/
def planeS1 : Plane := ⟨0, 0, 1, -2⟩

/-- Second slab plane. -/
def planeS2 : Plane := ⟨0, 0, 1, -1⟩

/-- Two-plane parallel-slab input. -/
def twoSlab : List ContourPlane := [{ plane := planeS1 }, { plane := planeS2 }]

theorem ptS21 : parallelTest planeS2 planeS1 = true :=
  parallelTest_of_abs_eq (by norm_num [planeS1, planeS2])
    (by norm_num [planeS1, planeS2]) (by norm_num [planeS1, planeS2])

theorem classify_twoSlab :
    classifyPlanes twoSlab =
      [⟨⟨0, 0, 1⟩, [{ plane := planeS1 }, { plane := planeS2 }]⟩] := by
  unfold classifyPlanes twoSlab
  simp only [List.foldl_cons, List.foldl_nil, insertPlane, List.headI, ptS21,
    if_true]
  simp [planeS1, planeS2]

theorem computeCells_twoSlab :
    computeCells twoSlab = [createSlabCell planeS1 planeS2] := by
  unfold computeCells
  have h2 : computeNonParallelPlaneCells twoSlab = [] := by
    unfold computeNonParallelPlaneCells
    rw [nonParallelSelection_classify_eq_nil]
    simp
  rw [h2, List.append_nil, classify_twoSlab]
  unfold computeParallelPlaneCells slabCellsOfGroup
  norm_num [sortByD, insertByD, planeS1, planeS2]

theorem slabVertex0 :
    (createSlabCell planeS1 planeS2).vertices.getD 0 default =
      ⟨100, 100, -1, []⟩ := by
  simp only [createSlabCell]
  rw [show List.range 8 = [0, 1, 2, 3, 4, 5, 6, 7] from by decide]
  norm_num [cross, planeS1, planeS2]

/-- Claim C7 (counterexample): in the slab cell produced for the two parallel
planes `z = 2` and `z = 1`, the first edge's first vertex lies at signed
distance `-3` from the bottom boundary plane — far outside the `0.0001`
tolerance — so the claimed half-space-membership invariant fails for slab
cells (whose vertices also carry no associated plane indices at all). -/
theorem slab_cell_edge_vertex_outside_tolerance :
    ∃ cell ∈ computeCells twoSlab, ∃ e ∈ cell.edges,
      ∃ q ∈ cell.boundaryPlanes,
        ¬ (abs (computeDistance q
          (cell.vertices.getD e.vertexIndex1 default).pos) ≤ tol) ∧
        (cell.vertices.getD e.vertexIndex1 default).associatedPlanes = [] := by
  refine ⟨createSlabCell planeS1 planeS2, ?_, ⟨0, 4⟩, ?_, planeS1, ?_, ?_, ?_⟩
  · rw [computeCells_twoSlab]
    exact List.mem_singleton_self _
  · show (⟨0, 4⟩ : Edge) ∈ (createSlabCell planeS1 planeS2).edges
    decide
  · rw [createSlabCell_boundaryPlanes]
    exact List.mem_cons_self _ _
  · rw [show (⟨0, 4⟩ : Edge).vertexIndex1 = 0 from rfl, slabVertex0]
    norm_num [computeDistance, Vertex.pos, planeS1, tol]
  · rw [show (⟨0, 4⟩ : Edge).vertexIndex1 = 0 from rfl, slabVertex0]

/-- The bounding box `[-1,1]^3`. -/
def cubeBox : BoundingBox := ⟨⟨-1, -1, -1⟩, ⟨1, 1, 1⟩⟩

/-- The six closure planes of `[-1,1]^3`, exactly as `addBoundingBoxPlanes`
produces them. -/
def cubePlanes : List ContourPlane := addBoundingBoxPlanes cubeBox

def cubeP0 : Plane := ⟨1, 0, 0, 1⟩

def cubeP1 : Plane := ⟨-1, 0, 0, 1⟩

def cubeP2 : Plane := ⟨0, 1, 0, 1⟩

def cubeP3 : Plane := ⟨0, -1, 0, 1⟩

def cubeP4 : Plane := ⟨0, 0, 1, 1⟩

def cubeP5 : Plane := ⟨0, 0, -1, 1⟩

theorem cube_g0 : (cubePlanes.getD 0 default).plane = cubeP0 := by decide

theorem cube_g1 : (cubePlanes.getD 1 default).plane = cubeP1 := by decide

theorem cube_g2 : (cubePlanes.getD 2 default).plane = cubeP2 := by decide

theorem cube_g3 : (cubePlanes.getD 3 default).plane = cubeP3 := by decide

theorem cube_g4 : (cubePlanes.getD 4 default).plane = cubeP4 := by decide

theorem cube_g5 : (cubePlanes.getD 5 default).plane = cubeP5 := by decide

theorem ptC01 : parallelTest cubeP0 cubeP1 = true :=
  parallelTest_of_abs_eq (by norm_num [cubeP0, cubeP1])
    (by norm_num [cubeP0, cubeP1]) (by norm_num [cubeP0, cubeP1])

theorem ptC23 : parallelTest cubeP2 cubeP3 = true :=
  parallelTest_of_abs_eq (by norm_num [cubeP2, cubeP3])
    (by norm_num [cubeP2, cubeP3]) (by norm_num [cubeP2, cubeP3])

theorem ptC45 : parallelTest cubeP4 cubeP5 = true :=
  parallelTest_of_abs_eq (by norm_num [cubeP4, cubeP5])
    (by norm_num [cubeP4, cubeP5]) (by norm_num [cubeP4, cubeP5])

theorem ptC02 : parallelTest cubeP0 cubeP2 = false :=
  ptAxisXY 1 1 1 1 (by norm_num) (by norm_num)

theorem ptC03 : parallelTest cubeP0 cubeP3 = false :=
  ptAxisXY 1 (-1) 1 1 (by norm_num) (by norm_num)

theorem ptC04 : parallelTest cubeP0 cubeP4 = false :=
  ptAxisXZ 1 1 1 1 (by norm_num) (by norm_num)

theorem ptC05 : parallelTest cubeP0 cubeP5 = false :=
  ptAxisXZ 1 (-1) 1 1 (by norm_num) (by norm_num)

theorem ptC12 : parallelTest cubeP1 cubeP2 = false :=
  ptAxisXY (-1) 1 1 1 (by norm_num) (by norm_num)

theorem ptC13 : parallelTest cubeP1 cubeP3 = false :=
  ptAxisXY (-1) (-1) 1 1 (by norm_num) (by norm_num)

theorem ptC14 : parallelTest cubeP1 cubeP4 = false :=
  ptAxisXZ (-1) 1 1 1 (by norm_num) (by norm_num)

theorem ptC15 : parallelTest cubeP1 cubeP5 = false :=
  ptAxisXZ (-1) (-1) 1 1 (by norm_num) (by norm_num)

theorem ptC24 : parallelTest cubeP2 cubeP4 = false :=
  ptAxisYZ 1 1 1 1 (by norm_num) (by norm_num)

theorem ptC25 : parallelTest cubeP2 cubeP5 = false :=
  ptAxisYZ 1 (-1) 1 1 (by norm_num) (by norm_num)

theorem ptC34 : parallelTest cubeP3 cubeP4 = false :=
  ptAxisYZ (-1) 1 1 1 (by norm_num) (by norm_num)

theorem ptC35 : parallelTest cubeP3 cubeP5 = false :=
  ptAxisYZ (-1) (-1) 1 1 (by norm_num) (by norm_num)

theorem skipC012 : tripleParallelSkip cubePlanes 0 1 2 = true := by
  show (parallelTest cubeP0 cubeP1 || parallelTest cubeP1 cubeP2 ||
    parallelTest cubeP0 cubeP2) = true
  rw [ptC01]
  simp

theorem skipC013 : tripleParallelSkip cubePlanes 0 1 3 = true := by
  show (parallelTest cubeP0 cubeP1 || parallelTest cubeP1 cubeP3 ||
    parallelTest cubeP0 cubeP3) = true
  rw [ptC01]
  simp

theorem skipC014 : tripleParallelSkip cubePlanes 0 1 4 = true := by
  show (parallelTest cubeP0 cubeP1 || parallelTest cubeP1 cubeP4 ||
    parallelTest cubeP0 cubeP4) = true
  rw [ptC01]
  simp

theorem skipC015 : tripleParallelSkip cubePlanes 0 1 5 = true := by
  show (parallelTest cubeP0 cubeP1 || parallelTest cubeP1 cubeP5 ||
    parallelTest cubeP0 cubeP5) = true
  rw [ptC01]
  simp

theorem skipC023 : tripleParallelSkip cubePlanes 0 2 3 = true := by
  show (parallelTest cubeP0 cubeP2 || parallelTest cubeP2 cubeP3 ||
    parallelTest cubeP0 cubeP3) = true
  rw [ptC02, ptC23]
  simp

theorem skipC045 : tripleParallelSkip cubePlanes 0 4 5 = true := by
  show (parallelTest cubeP0 cubeP4 || parallelTest cubeP4 cubeP5 ||
    parallelTest cubeP0 cubeP5) = true
  rw [ptC04, ptC45]
  simp

theorem skipC123 : tripleParallelSkip cubePlanes 1 2 3 = true := by
  show (parallelTest cubeP1 cubeP2 || parallelTest cubeP2 cubeP3 ||
    parallelTest cubeP1 cubeP3) = true
  rw [ptC12, ptC23]
  simp

theorem skipC145 : tripleParallelSkip cubePlanes 1 4 5 = true := by
  show (parallelTest cubeP1 cubeP4 || parallelTest cubeP4 cubeP5 ||
    parallelTest cubeP1 cubeP5) = true
  rw [ptC14, ptC45]
  simp

theorem skipC234 : tripleParallelSkip cubePlanes 2 3 4 = true := by
  show (parallelTest cubeP2 cubeP3 || parallelTest cubeP3 cubeP4 ||
    parallelTest cubeP2 cubeP4) = true
  rw [ptC23]
  simp

theorem skipC235 : tripleParallelSkip cubePlanes 2 3 5 = true := by
  show (parallelTest cubeP2 cubeP3 || parallelTest cubeP3 cubeP5 ||
    parallelTest cubeP2 cubeP5) = true
  rw [ptC23]
  simp

theorem skipC245 : tripleParallelSkip cubePlanes 2 4 5 = true := by
  show (parallelTest cubeP2 cubeP4 || parallelTest cubeP4 cubeP5 ||
    parallelTest cubeP2 cubeP5) = true
  rw [ptC24, ptC45]
  simp

theorem skipC345 : tripleParallelSkip cubePlanes 3 4 5 = true := by
  show (parallelTest cubeP3 cubeP4 || parallelTest cubeP4 cubeP5 ||
    parallelTest cubeP3 cubeP5) = true
  rw [ptC34, ptC45]
  simp

theorem vertexC024 :
    tripleVertex cubePlanes 0 2 4 = ⟨-1, -1, -1, [0, 2, 4]⟩ := by
  simp only [tripleVertex, computePlaneIntersection, interDet, cube_g0,
    cube_g2, cube_g4]
  norm_num [cubeP0, cubeP2, cubeP4]

theorem validC024 : tripleValid cubePlanes 0 2 4 = false := by
  rw [tripleValid_eq_false_iff, vertexC024]
  refine ⟨cubePlanes.getD 1 default, getD_mem_of_lt (by decide), ?_⟩
  rw [cube_g1]
  norm_num [computeDistance, Vertex.pos, cubeP1, tol]

theorem vertexC025 :
    tripleVertex cubePlanes 0 2 5 = ⟨-1, -1, 1, [0, 2, 5]⟩ := by
  simp only [tripleVertex, computePlaneIntersection, interDet, cube_g0,
    cube_g2, cube_g5]
  norm_num [cubeP0, cubeP2, cubeP5]

theorem validC025 : tripleValid cubePlanes 0 2 5 = false := by
  rw [tripleValid_eq_false_iff, vertexC025]
  refine ⟨cubePlanes.getD 1 default, getD_mem_of_lt (by decide), ?_⟩
  rw [cube_g1]
  norm_num [computeDistance, Vertex.pos, cubeP1, tol]

theorem vertexC034 :
    tripleVertex cubePlanes 0 3 4 = ⟨-1, 1, -1, [0, 3, 4]⟩ := by
  simp only [tripleVertex, computePlaneIntersection, interDet, cube_g0,
    cube_g3, cube_g4]
  norm_num [cubeP0, cubeP3, cubeP4]

theorem validC034 : tripleValid cubePlanes 0 3 4 = false := by
  rw [tripleValid_eq_false_iff, vertexC034]
  refine ⟨cubePlanes.getD 1 default, getD_mem_of_lt (by decide), ?_⟩
  rw [cube_g1]
  norm_num [computeDistance, Vertex.pos, cubeP1, tol]

theorem vertexC035 :
    tripleVertex cubePlanes 0 3 5 = ⟨-1, 1, 1, [0, 3, 5]⟩ := by
  simp only [tripleVertex, computePlaneIntersection, interDet, cube_g0,
    cube_g3, cube_g5]
  norm_num [cubeP0, cubeP3, cubeP5]

theorem validC035 : tripleValid cubePlanes 0 3 5 = false := by
  rw [tripleValid_eq_false_iff, vertexC035]
  refine ⟨cubePlanes.getD 1 default, getD_mem_of_lt (by decide), ?_⟩
  rw [cube_g1]
  norm_num [computeDistance, Vertex.pos, cubeP1, tol]

theorem vertexC124 :
    tripleVertex cubePlanes 1 2 4 = ⟨1, -1, -1, [1, 2, 4]⟩ := by
  simp only [tripleVertex, computePlaneIntersection, interDet, cube_g1,
    cube_g2, cube_g4]
  norm_num [cubeP1, cubeP2, cubeP4]

theorem validC124 : tripleValid cubePlanes 1 2 4 = false := by
  rw [tripleValid_eq_false_iff, vertexC124]
  refine ⟨cubePlanes.getD 0 default, getD_mem_of_lt (by decide), ?_⟩
  rw [cube_g0]
  norm_num [computeDistance, Vertex.pos, cubeP0, tol]

theorem vertexC125 :
    tripleVertex cubePlanes 1 2 5 = ⟨1, -1, 1, [1, 2, 5]⟩ := by
  simp only [tripleVertex, computePlaneIntersection, interDet, cube_g1,
    cube_g2, cube_g5]
  norm_num [cubeP1, cubeP2, cubeP5]

theorem validC125 : tripleValid cubePlanes 1 2 5 = false := by
  rw [tripleValid_eq_false_iff, vertexC125]
  refine ⟨cubePlanes.getD 0 default, getD_mem_of_lt (by decide), ?_⟩
  rw [cube_g0]
  norm_num [computeDistance, Vertex.pos, cubeP0, tol]

theorem vertexC134 :
    tripleVertex cubePlanes 1 3 4 = ⟨1, 1, -1, [1, 3, 4]⟩ := by
  simp only [tripleVertex, computePlaneIntersection, interDet, cube_g1,
    cube_g3, cube_g4]
  norm_num [cubeP1, cubeP3, cubeP4]

theorem validC134 : tripleValid cubePlanes 1 3 4 = false := by
  rw [tripleValid_eq_false_iff, vertexC134]
  refine ⟨cubePlanes.getD 0 default, getD_mem_of_lt (by decide), ?_⟩
  rw [cube_g0]
  norm_num [computeDistance, Vertex.pos, cubeP0, tol]

theorem vertexC135 :
    tripleVertex cubePlanes 1 3 5 = ⟨1, 1, 1, [1, 3, 5]⟩ := by
  simp only [tripleVertex, computePlaneIntersection, interDet, cube_g1,
    cube_g3, cube_g5]
  norm_num [cubeP1, cubeP3, cubeP5]

theorem validC135 : tripleValid cubePlanes 1 3 5 = false := by
  rw [tripleValid_eq_false_iff, vertexC135]
  refine ⟨cubePlanes.getD 0 default, getD_mem_of_lt (by decide), ?_⟩
  rw [cube_g0]
  norm_num [computeDistance, Vertex.pos, cubeP0, tol]

theorem acceptC012 : acceptTriple cubePlanes (0, 1, 2) = none := by
  simp only [acceptTriple, skipC012, if_true]

theorem acceptC013 : acceptTriple cubePlanes (0, 1, 3) = none := by
  simp only [acceptTriple, skipC013, if_true]

theorem acceptC014 : acceptTriple cubePlanes (0, 1, 4) = none := by
  simp only [acceptTriple, skipC014, if_true]

theorem acceptC015 : acceptTriple cubePlanes (0, 1, 5) = none := by
  simp only [acceptTriple, skipC015, if_true]

theorem acceptC023 : acceptTriple cubePlanes (0, 2, 3) = none := by
  simp only [acceptTriple, skipC023, if_true]

theorem acceptC045 : acceptTriple cubePlanes (0, 4, 5) = none := by
  simp only [acceptTriple, skipC045, if_true]

theorem acceptC123 : acceptTriple cubePlanes (1, 2, 3) = none := by
  simp only [acceptTriple, skipC123, if_true]

theorem acceptC145 : acceptTriple cubePlanes (1, 4, 5) = none := by
  simp only [acceptTriple, skipC145, if_true]

theorem acceptC234 : acceptTriple cubePlanes (2, 3, 4) = none := by
  simp only [acceptTriple, skipC234, if_true]

theorem acceptC235 : acceptTriple cubePlanes (2, 3, 5) = none := by
  simp only [acceptTriple, skipC235, if_true]

theorem acceptC245 : acceptTriple cubePlanes (2, 4, 5) = none := by
  simp only [acceptTriple, skipC245, if_true]

theorem acceptC345 : acceptTriple cubePlanes (3, 4, 5) = none := by
  simp only [acceptTriple, skipC345, if_true]

theorem acceptC024 : acceptTriple cubePlanes (0, 2, 4) = none := by
  show (if tripleParallelSkip cubePlanes 0 2 4 = true then none
    else if tripleValid cubePlanes 0 2 4 = true
    then some (tripleVertex cubePlanes 0 2 4) else none) = none
  rw [validC024]
  simp only [Bool.false_eq_true, if_false, ite_self]

theorem acceptC025 : acceptTriple cubePlanes (0, 2, 5) = none := by
  show (if tripleParallelSkip cubePlanes 0 2 5 = true then none
    else if tripleValid cubePlanes 0 2 5 = true
    then some (tripleVertex cubePlanes 0 2 5) else none) = none
  rw [validC025]
  simp only [Bool.false_eq_true, if_false, ite_self]

theorem acceptC034 : acceptTriple cubePlanes (0, 3, 4) = none := by
  show (if tripleParallelSkip cubePlanes 0 3 4 = true then none
    else if tripleValid cubePlanes 0 3 4 = true
    then some (tripleVertex cubePlanes 0 3 4) else none) = none
  rw [validC034]
  simp only [Bool.false_eq_true, if_false, ite_self]

theorem acceptC035 : acceptTriple cubePlanes (0, 3, 5) = none := by
  show (if tripleParallelSkip cubePlanes 0 3 5 = true then none
    else if tripleValid cubePlanes 0 3 5 = true
    then some (tripleVertex cubePlanes 0 3 5) else none) = none
  rw [validC035]
  simp only [Bool.false_eq_true, if_false, ite_self]

theorem acceptC124 : acceptTriple cubePlanes (1, 2, 4) = none := by
  show (if tripleParallelSkip cubePlanes 1 2 4 = true then none
    else if tripleValid cubePlanes 1 2 4 = true
    then some (tripleVertex cubePlanes 1 2 4) else none) = none
  rw [validC124]
  simp only [Bool.false_eq_true, if_false, ite_self]

theorem acceptC125 : acceptTriple cubePlanes (1, 2, 5) = none := by
  show (if tripleParallelSkip cubePlanes 1 2 5 = true then none
    else if tripleValid cubePlanes 1 2 5 = true
    then some (tripleVertex cubePlanes 1 2 5) else none) = none
  rw [validC125]
  simp only [Bool.false_eq_true, if_false, ite_self]

theorem acceptC134 : acceptTriple cubePlanes (1, 3, 4) = none := by
  show (if tripleParallelSkip cubePlanes 1 3 4 = true then none
    else if tripleValid cubePlanes 1 3 4 = true
    then some (tripleVertex cubePlanes 1 3 4) else none) = none
  rw [validC134]
  simp only [Bool.false_eq_true, if_false, ite_self]

theorem acceptC135 : acceptTriple cubePlanes (1, 3, 5) = none := by
  show (if tripleParallelSkip cubePlanes 1 3 5 = true then none
    else if tripleValid cubePlanes 1 3 5 = true
    then some (tripleVertex cubePlanes 1 3 5) else none) = none
  rw [validC135]
  simp only [Bool.false_eq_true, if_false, ite_self]

theorem fiv_cube : findIntersectionVertices cubePlanes = [] := by
  unfold findIntersectionVertices
  rw [show cubePlanes.length = 6 from by decide,
    show triples 6 = [(0, 1, 2), (0, 1, 3), (0, 1, 4), (0, 1, 5), (0, 2, 3), (0, 2, 4), (0, 2, 5), (0, 3, 4), (0, 3, 5), (0, 4, 5), (1, 2, 3), (1, 2, 4), (1, 2, 5), (1, 3, 4), (1, 3, 5), (1, 4, 5), (2, 3, 4), (2, 3, 5), (2, 4, 5), (3, 4, 5)] from by decide]
  simp only [List.filterMap_cons, List.filterMap_nil, acceptC012, acceptC013, acceptC014, acceptC015, acceptC023, acceptC024, acceptC025, acceptC034, acceptC035, acceptC045, acceptC123, acceptC124, acceptC125, acceptC134, acceptC135, acceptC145, acceptC234, acceptC235, acceptC245, acceptC345]

/-- Claim C3 (refuted): for the six axis-aligned closure planes of the box
`[-1,1]^3` alone, the non-parallel solver accepts no intersection vertices at
all — every cube corner lies at signed distance `2` from an opposite face
plane and the validity filter rejects it — so the assembler builds no cell,
rather than the claimed 8 vertices and 12 edges. -/
theorem cube_closure_planes_yield_no_vertices :
    cubePlanes.length = 6 ∧
    findIntersectionVertices cubePlanes = [] ∧
    intersectionCells cubePlanes = [] := by
  refine ⟨by decide, fiv_cube, ?_⟩
  unfold intersectionCells
  rw [fiv_cube]
  rfl

/-- Claim C9: `addBoundingBoxPlanes` emits exactly six axis-aligned closure
planes with inward-pointing normals — the min-X plane is `(1,0,0,-min.x)` —
such that every point strictly inside the box satisfies `n*p + d ≥ 0` for all
six; each carries its four corner vertices; and the constructor appends all
six after the input planes, so they enter classification and intersection
like input planes. -/
theorem bounding_box_planes_inward_and_appended
    (input : List ContourPlane) (bb : BoundingBox) (pt : Vec3)
    (h : bb.min.x < pt.x ∧ pt.x < bb.max.x ∧ bb.min.y < pt.y ∧
      pt.y < bb.max.y ∧ bb.min.z < pt.z ∧ pt.z < bb.max.z) :
    (addBoundingBoxPlanes bb).length = 6 ∧
    ((addBoundingBoxPlanes bb).map fun cp =>
      (cp.plane.a, cp.plane.b, cp.plane.c)) =
      [(1, 0, 0), (-1, 0, 0), (0, 1, 0), (0, -1, 0), (0, 0, 1), (0, 0, -1)] ∧
    ((addBoundingBoxPlanes bb).getD 0 default).plane = ⟨1, 0, 0, -bb.min.x⟩ ∧
    (∀ cp ∈ addBoundingBoxPlanes bb,
      cp.numVertices = 4 ∧ cp.vertices.length = 4) ∧
    (∀ cp ∈ addBoundingBoxPlanes bb, 0 ≤ computeDistance cp.plane pt) ∧
    constructorPlanes input =
      input ++ addBoundingBoxPlanes (computeTightBoundingBox input) ∧
    computeCells (constructorPlanes input) = runPipeline input := by
  obtain ⟨h1, h2, h3, h4, h5, h6⟩ := h
  refine ⟨rfl, rfl, rfl, ?_, ?_, rfl, rfl⟩
  · intro cp hcp
    simp only [addBoundingBoxPlanes, List.mem_cons, List.not_mem_nil,
      or_false] at hcp
    rcases hcp with rfl | rfl | rfl | rfl | rfl | rfl <;> exact ⟨rfl, rfl⟩
  · intro cp hcp
    simp only [addBoundingBoxPlanes, List.mem_cons, List.not_mem_nil,
      or_false] at hcp
    rcases hcp with rfl | rfl | rfl | rfl | rfl | rfl <;>
      · simp only [computeDistance]
        linarith

/-- Concrete instantiation of the closure-plane theorem at `[-1,1]^3` and the
interior point `(0,0,0)`. -/
theorem bounding_box_planes_inward_and_appended_witness :
    (cubeBox.min.x < (0 : ℚ) ∧ (0 : ℚ) < cubeBox.max.x ∧
      cubeBox.min.y < (0 : ℚ) ∧ (0 : ℚ) < cubeBox.max.y ∧
      cubeBox.min.z < (0 : ℚ) ∧ (0 : ℚ) < cubeBox.max.z) ∧
    ∀ cp ∈ addBoundingBoxPlanes cubeBox,
      0 ≤ computeDistance cp.plane ⟨0, 0, 0⟩ :=
  ⟨by decide,
    (bounding_box_planes_inward_and_appended [] cubeBox ⟨0, 0, 0⟩
      (by decide)).2.2.2.2.1⟩

/-- The externally observable data of a cell: vertex positions, edge index
pairs and boundary planes. -/
def cellData (c : ConvexCell) :
    List (ℚ × ℚ × ℚ) × List (ℕ × ℕ) × List Plane :=
  (c.vertices.map fun v => (v.x, v.y, v.z),
   c.edges.map fun e => (e.vertexIndex1, e.vertexIndex2),
   c.boundaryPlanes)

/-- Claim C10: running the full pipeline twice on the same immutable input
yields identical vertex positions, edge index pairs and boundary-plane data —
the pipeline is a pure function of the input plane list alone (every
container in the model is an ordered list; the source uses only
`std::vector`, no unordered structures). -/
theorem pipeline_deterministic (input1 input2 : List ContourPlane)
    (h : input1 = input2) :
    (runPipeline input1).map cellData = (runPipeline input2).map cellData := by
  rw [h]

/-- Concrete instantiation of the determinism theorem. -/
theorem pipeline_deterministic_witness :
    twoSlab = twoSlab ∧
    (runPipeline twoSlab).map cellData =
      (runPipeline twoSlab).map cellData :=
  ⟨rfl, pipeline_deterministic twoSlab twoSlab rfl⟩
